import Mathlib

/-!
Shallow embedding of `hmalib/common/messages/submit.py` (the submission
message codecs of the hasher-matcher-actioner) together with the parts of the
Python runtime semantics the file relies on: string-keyed dictionaries,
`KeyError`/`TypeError` raising on lookups, `len`, the `in` membership test,
indexing, and `urllib.parse.unquote_plus`.
-/

deriving instance DecidableEq for Except

namespace Hmalib

/-- Errors a Python expression of this module can raise.  `keyError` carries
the missing key (Python `KeyError`), `typeError` models `TypeError` (e.g.
`len` of an `int`, membership test on an `int`), `attributeError` models
`AttributeError` (calling `get_name` on a value that is not a content-type
class), `indexError` models `IndexError`. -/
inductive PyErr where
  | keyError (k : String)
  | typeError
  | attributeError
  | indexError
deriving DecidableEq

/-- The `MalformedMessage` error family of the spec: "raised when a required key
is missing from a raw payload during deserialization/parsing".  In the Python
source this surfaces as a `KeyError` on the raw dict. -/
def PyErr.isMalformedMessage : PyErr → Bool
  | .keyError _ => true
  | _ => false

/-- Untyped Python values as they occur in the raw SQS payloads handled by
`submit.py`: strings, integers, lists and string-keyed dictionaries. -/
inductive Value where
  | str (s : String)
  | int (n : Int)
  | list (xs : List Value)
  | dict (entries : List (String × Value))

mutual

/-- Decidable equality of Python values (Python `==` on these shapes). -/
def Value.decEq : (a b : Value) → Decidable (a = b)
  | .str a, .str b =>
    match decEq a b with
    | .isTrue h => .isTrue (by rw [h])
    | .isFalse h => .isFalse (by intro he; cases he; exact h rfl)
  | .int a, .int b =>
    match decEq a b with
    | .isTrue h => .isTrue (by rw [h])
    | .isFalse h => .isFalse (by intro he; cases he; exact h rfl)
  | .list xs, .list ys =>
    match decEqValueList xs ys with
    | .isTrue h => .isTrue (by rw [h])
    | .isFalse h => .isFalse (by intro he; cases he; exact h rfl)
  | .dict a, .dict b =>
    match decEqEntryList a b with
    | .isTrue h => .isTrue (by rw [h])
    | .isFalse h => .isFalse (by intro he; cases he; exact h rfl)
  | .str _, .int _ | .str _, .list _ | .str _, .dict _ => .isFalse nofun
  | .int _, .str _ | .int _, .list _ | .int _, .dict _ => .isFalse nofun
  | .list _, .str _ | .list _, .int _ | .list _, .dict _ => .isFalse nofun
  | .dict _, .str _ | .dict _, .int _ | .dict _, .list _ => .isFalse nofun

/-- Decidable equality of lists of Python values. -/
def decEqValueList : (a b : List Value) → Decidable (a = b)
  | [], [] => .isTrue rfl
  | [], _ :: _ => .isFalse nofun
  | _ :: _, [] => .isFalse nofun
  | x :: xs, y :: ys =>
    match Value.decEq x y, decEqValueList xs ys with
    | .isTrue h₁, .isTrue h₂ => .isTrue (by rw [h₁, h₂])
    | .isFalse h₁, _ => .isFalse (by intro he; cases he; exact h₁ rfl)
    | _, .isFalse h₂ => .isFalse (by intro he; cases he; exact h₂ rfl)

/-- Decidable equality of dict entry lists. -/
def decEqEntryList : (a b : List (String × Value)) → Decidable (a = b)
  | [], [] => .isTrue rfl
  | [], _ :: _ => .isFalse nofun
  | _ :: _, [] => .isFalse nofun
  | (k₁, v₁) :: xs, (k₂, v₂) :: ys =>
    match decEq k₁ k₂, Value.decEq v₁ v₂, decEqEntryList xs ys with
    | .isTrue h₀, .isTrue h₁, .isTrue h₂ => .isTrue (by rw [h₀, h₁, h₂])
    | .isFalse h₀, _, _ => .isFalse (by intro he; cases he; exact h₀ rfl)
    | _, .isFalse h₁, _ => .isFalse (by intro he; cases he; exact h₁ rfl)
    | _, _, .isFalse h₂ => .isFalse (by intro he; cases he; exact h₂ rfl)

end

instance : DecidableEq Value := Value.decEq

/-- A raw payload: a string-keyed Python dictionary (`d: dict`). -/
abbrev Dict := List (String × Value)

/-- First binding of key `k` in an association list (Python dict lookup;
keys of an actual Python dict are unique, so first binding is the binding). -/
def lookupKey (entries : Dict) (k : String) : Option Value :=
  match entries with
  | [] => none
  | (k₀, v₀) :: rest => if k₀ = k then some v₀ else lookupKey rest k

/-- Python `d[k]` on a dict: the bound value, or `KeyError`. -/
def getKey (d : Dict) (k : String) : Except PyErr Value :=
  match lookupKey d k with
  | some v => .ok v
  | none => .error (.keyError k)

/-- Python `v[k]` for a string subscript `k`: dict lookup on a dict,
`TypeError` on a string, list or int (string/list indices must be integers,
ints are not subscriptable). -/
def Value.getItemStr (v : Value) (k : String) : Except PyErr Value :=
  match v with
  | .dict es =>
    match lookupKey es k with
    | some w => .ok w
    | none => .error (.keyError k)
  | _ => .error .typeError

/-- Python `v[0]`: first element of a list (`IndexError` when empty), first
character of a string, `KeyError` on a string-keyed dict (`0` is not one of
its keys), `TypeError` on an int. -/
def Value.index0 (v : Value) : Except PyErr Value :=
  match v with
  | .list [] => .error .indexError
  | .list (x :: _) => .ok x
  | .str s =>
    match s.data with
    | [] => .error .indexError
    | c :: _ => .ok (.str ⟨[c]⟩)
  | .dict _ => .error (.keyError "0")
  | .int _ => .error .typeError

/-- Python `len(v)`: defined for strings, lists and dicts; `TypeError` for an
int. -/
def Value.pyLen (v : Value) : Except PyErr Nat :=
  match v with
  | .str s => .ok s.length
  | .list xs => .ok xs.length
  | .dict es => .ok es.length
  | .int _ => .error .typeError

/-- Substring test on character lists (Python `needle in haystack` for
strings): the needle occurs contiguously in the haystack. -/
def containsSeq (ned : List Char) : List Char → Bool
  | [] => ned.isEmpty
  | c :: rest => ned.isPrefixOf (c :: rest) || containsSeq ned rest

/-- Python `ned in v` for a string needle `ned`: key membership on a dict,
element membership on a list, substring test on a string, `TypeError` on an
int. -/
def Value.containsStr (ned : String) (v : Value) : Except PyErr Bool :=
  match v with
  | .dict es => .ok (es.any fun e => e.1 == ned)
  | .list xs => .ok (xs.any fun x => x == Value.str ned)
  | .str s => .ok (containsSeq ned.data s.data)
  | .int _ => .error .typeError

/-- Python iteration `for x in v`: the elements of a list, the characters of
a string (as one-character strings), the keys of a dict; `TypeError` on an
int. -/
def Value.toIterable (v : Value) : Except PyErr (List Value) :=
  match v with
  | .list xs => .ok xs
  | .str s => .ok (s.data.map fun c => Value.str ⟨[c]⟩)
  | .dict es => .ok (es.map fun e => Value.str e.1)
  | .int _ => .error .typeError

/-! ### `urllib.parse.unquote_plus`

`unquote_plus(s)` first replaces every `+` with a space and then resolves
percent-escapes: each maximal run of `%XX` hex escapes is decoded as a byte
string which is then UTF-8-decoded with `errors="replace"` (invalid sequences
become U+FFFD); a `%` not followed by two hex digits is kept literally. -/

/-- Value of an ASCII hex digit, if any. -/
def hexVal (c : Char) : Option Nat :=
  if ('0' ≤ c ∧ c ≤ '9') then some (c.toNat - '0'.toNat)
  else if ('a' ≤ c ∧ c ≤ 'f') then some (c.toNat - 'a'.toNat + 10)
  else if ('A' ≤ c ∧ c ≤ 'F') then some (c.toNat - 'A'.toNat + 10)
  else none

/-- The Unicode replacement character U+FFFD. -/
def replChar : Char := Char.ofNat 0xFFFD

/-- Is `b` a UTF-8 continuation byte (`0x80..0xBF`)? -/
def isCont (b : Nat) : Bool := 0x80 ≤ b && b < 0xC0

/-- Valid range of the first continuation byte after leader `b`
(the restricted ranges rule out overlong encodings, surrogates and
code points above U+10FFFF). -/
def cont1Ok (b c1 : Nat) : Bool :=
  if b = 0xE0 then 0xA0 ≤ c1 && c1 < 0xC0
  else if b = 0xED then 0x80 ≤ c1 && c1 < 0xA0
  else if b = 0xF0 then 0x90 ≤ c1 && c1 < 0xC0
  else if b = 0xF4 then 0x80 ≤ c1 && c1 < 0x90
  else isCont c1

/-- Decoding of a UTF-8 byte sequence with `errors="replace"`: each invalid
maximal subpart is replaced by one U+FFFD, as CPython does.  The `fuel`
argument only drives structural recursion; every step consumes at least one
byte, so `fuel = length` (as supplied by `utf8DecodeReplace`) is enough. -/
def utf8DecodeReplaceFuel : Nat → List Nat → List Char
  | 0, _ => []
  | _ + 1, [] => []
  | fuel + 1, b :: rest =>
    if b < 0x80 then Char.ofNat b :: utf8DecodeReplaceFuel fuel rest
    else if b < 0xC2 then replChar :: utf8DecodeReplaceFuel fuel rest
    else if b ≤ 0xDF then
      match rest with
      | [] => [replChar]
      | c1 :: r1 =>
        if isCont c1 then
          Char.ofNat ((b - 0xC0) * 64 + (c1 - 0x80)) :: utf8DecodeReplaceFuel fuel r1
        else replChar :: utf8DecodeReplaceFuel fuel (c1 :: r1)
    else if b ≤ 0xEF then
      match rest with
      | [] => [replChar]
      | c1 :: r1 =>
        if cont1Ok b c1 then
          match r1 with
          | [] => [replChar]
          | c2 :: r2 =>
            if isCont c2 then
              Char.ofNat ((b - 0xE0) * 4096 + (c1 - 0x80) * 64 + (c2 - 0x80)) ::
                utf8DecodeReplaceFuel fuel r2
            else replChar :: utf8DecodeReplaceFuel fuel (c2 :: r2)
        else replChar :: utf8DecodeReplaceFuel fuel (c1 :: r1)
    else if b ≤ 0xF4 then
      match rest with
      | [] => [replChar]
      | c1 :: r1 =>
        if cont1Ok b c1 then
          match r1 with
          | [] => [replChar]
          | c2 :: r2 =>
            if isCont c2 then
              match r2 with
              | [] => [replChar]
              | c3 :: r3 =>
                if isCont c3 then
                  Char.ofNat ((b - 0xF0) * 262144 + (c1 - 0x80) * 4096 +
                      (c2 - 0x80) * 64 + (c3 - 0x80)) :: utf8DecodeReplaceFuel fuel r3
                else replChar :: utf8DecodeReplaceFuel fuel (c3 :: r3)
            else replChar :: utf8DecodeReplaceFuel fuel (c2 :: r2)
        else replChar :: utf8DecodeReplaceFuel fuel (c1 :: r1)
    else replChar :: utf8DecodeReplaceFuel fuel rest

/-- Decoding of UTF-8 bytes with `errors="replace"`. -/
def utf8DecodeReplace (bs : List Nat) : List Char :=
  utf8DecodeReplaceFuel bs.length bs

/-- Tokenize a character list into decoded escape bytes (`Sum.inl`) and plain
characters (`Sum.inr`): `%XX` with two hex digits becomes the byte `XX`;
a `%` not followed by two hex digits stays a literal character.  The `fuel`
argument only drives structural recursion; every step consumes at least one
character, so `fuel = length` (as supplied by `plusTokens`) is enough. -/
def plusTokensFuel : Nat → List Char → List (Sum Nat Char)
  | 0, _ => []
  | _ + 1, [] => []
  | fuel + 1, c :: rest =>
    if c = '%' then
      match rest with
      | h₁ :: h₂ :: r =>
        (match hexVal h₁, hexVal h₂ with
         | some a, some b => Sum.inl (16 * a + b) :: plusTokensFuel fuel r
         | _, _ => Sum.inr '%' :: plusTokensFuel fuel (h₁ :: h₂ :: r))
      | _ => Sum.inr c :: plusTokensFuel fuel rest
    else Sum.inr c :: plusTokensFuel fuel rest

/-- Tokenizes percent escapes, with adequate fuel supplied. -/
def plusTokens (cs : List Char) : List (Sum Nat Char) :=
  plusTokensFuel cs.length cs

/-- Decode the token stream: maximal runs of escape bytes are UTF-8-decoded
together (buffer `buf` holds the pending run), plain characters pass
through. -/
def decodeRuns : List (Sum Nat Char) → List Nat → List Char
  | [], buf => utf8DecodeReplace buf
  | Sum.inl b :: rest, buf => decodeRuns rest (buf ++ [b])
  | Sum.inr c :: rest, buf => utf8DecodeReplace buf ++ (c :: decodeRuns rest [])

/-- `urllib.parse.unquote_plus` with the default `encoding="utf-8"`,
`errors="replace"`. -/
def unquote_plus (s : String) : String :=
  ⟨decodeRuns (plusTokens (s.data.map fun c => if c == '+' then ' ' else c)) []⟩

/-! ### `threatexchange.content_type` interface

`submit.py` only calls `get_name()` on the content-type class it carries;
the registry itself is an external collaborator. -/

/-- A content-type class (`t.Type[ContentType]`): all `submit.py` uses of it
go through `get_name()`, so it is represented by its registry name. -/
structure ContentType where
  name : String
deriving DecidableEq

/-- What the `content_type` field of a `URLSubmissionMessage` holds at
runtime: a content-type class when the message was constructed directly, or
whatever raw value `from_sqs_message` copied out of the payload (a string,
for a payload produced by `to_sqs_message`). -/
inductive CTField where
  | cls (ct : ContentType)
  | val (v : Value)
deriving DecidableEq

/-- Python `self.content_type.get_name()`: the registry name on a content-type
class; `AttributeError` on any other value (e.g. the raw string stored by
`from_sqs_message`). -/
def CTField.get_name : CTField → Except PyErr String
  | .cls ct => .ok ct.name
  | .val _ => .error .attributeError

/-! ### `URLSubmissionMessage` -/

/-- Dataclass `URLSubmissionMessage`.  Field `event_type` defaults to the
reserved tag `"URLSubmission"`. -/
structure URLSubmissionMessage where
  content_type : CTField
  content_id : Value
  url : Value
  event_type : Value := Value.str "URLSubmission"
deriving DecidableEq

/-- Method `URLSubmissionMessage.to_sqs_message`: builds the four-key raw dict;
raises (`AttributeError`) only if `content_type` has no `get_name`. -/
def URLSubmissionMessage.to_sqs_message (m : URLSubmissionMessage) :
    Except PyErr Dict := do
  let n ← m.content_type.get_name
  pure [("ContentType", Value.str n), ("ContentId", m.content_id),
        ("URL", m.url), ("EventType", m.event_type)]

/-- Method `URLSubmissionMessage.from_sqs_message`: reads the four keys (in
source keyword order), raising `KeyError` on the first missing one, and
stores the raw values unchanged — in particular the raw `"ContentType"`
string lands in `content_type` and the raw `"EventType"` value in
`event_type`. -/
def URLSubmissionMessage.from_sqs_message (d : Dict) :
    Except PyErr URLSubmissionMessage := do
  let ct ← getKey d "ContentType"
  let cid ← getKey d "ContentId"
  let u ← getKey d "URL"
  let et ← getKey d "EventType"
  pure ⟨.val ct, cid, u, et⟩

/-- Method `URLSubmissionMessage.could_be`: Python `"EventType" in d`. -/
def URLSubmissionMessage.could_be (d : Dict) : Bool :=
  (lookupKey d "EventType").isSome

/-! ### `S3ImageSubmission` and `S3ImageSubmissionBatchMessage` -/

/-- One record of an S3 batch: derived content id, bucket name (copied
verbatim from the notification, whatever value it is), decoded key. -/
structure S3ImageSubmission where
  content_id : String
  bucket : Value
  key : String
deriving DecidableEq

/-- Modelled from the spec: `S3BucketContentSource.get_content_id_from_s3_key`
lives in `hmalib/common/content_sources.py`, which is not among the sources;
per the naming convention of the spec, "the id is the key with the
configured prefix removed from its start" (the Python slice dropping the
length of the configured prefix). -/
def S3BucketContentSource.get_content_id_from_s3_key
    (key : String) ( image_prefix : String) : String :=
  ⟨key.data.drop image_prefix.length⟩

/-- Call of `unquote_plus` on a raw payload value: the Python function
operates on `str` and raises `TypeError` on other arguments. -/
def pyUnquotePlus (v : Value) : Except PyErr String :=
  match v with
  | .str s => .ok (unquote_plus s)
  | _ => .error .typeError

/-- The per-record field extraction of the loop body of
`S3ImageSubmissionBatchMessage.from_sqs_message`, in source order:
`s3_record["s3"]["bucket"]["name"]`, then
`unquote_plus(s3_record["s3"]["object"]["key"])`, then
`s3_record["s3"]["object"]["size"]`. -/
def recordLookups (s3_record : Value) : Except PyErr (Value × String × Value) := do
  let s3 ← s3_record.getItemStr "s3"
  let bucket_name ← (← s3.getItemStr "bucket").getItemStr "name"
  let key ← pyUnquotePlus (← (← s3.getItemStr "object").getItemStr "key")
  let size ← (← s3.getItemStr "object").getItemStr "size"
  pure (bucket_name, key, size)

/-- One iteration of the loop of `from_sqs_message`: extract the fields;
a record of size `0` is skipped (`none`), otherwise an `S3ImageSubmission`
with the convention-derived content id is produced. -/
def processRecord (s3_record : Value) ( image_prefix : String) :
    Except PyErr (Option S3ImageSubmission) := do
  let (bucket_name, key, size) ← recordLookups s3_record
  if size = Value.int 0 then pure none
  else pure (some ⟨S3BucketContentSource.get_content_id_from_s3_key key image_prefix,
                   bucket_name, key⟩)

/-- The whole loop: process the records in order, appending the produced
submissions; the first raising record aborts the batch. -/
def processRecords (records : List Value) ( image_prefix : String) :
    Except PyErr (List S3ImageSubmission) :=
  match records with
  | [] => pure []
  | r :: rest => do
    let s? ← processRecord r image_prefix
    let more ← processRecords rest image_prefix
    pure (match s? with | some s => s :: more | none => more)

/-- An image batch message: the submissions parsed out of one notification. -/
structure S3ImageSubmissionBatchMessage where
  image_submissions : List S3ImageSubmission
deriving DecidableEq

/-- Method `S3ImageSubmissionBatchMessage.from_sqs_message`: iterate
`d["Records"]` (`KeyError` when absent), building one `S3ImageSubmission`
per record of non-zero size. -/
def S3ImageSubmissionBatchMessage.from_sqs_message (d : Dict)
    ( image_prefix : String) : Except PyErr S3ImageSubmissionBatchMessage := do
  let records ← getKey d "Records"
  let items ← records.toIterable
  let result ← processRecords items image_prefix
  pure ⟨result⟩

/-- Method `S3ImageSubmissionBatchMessage.could_be`: the Python expression
`"Records" in d and len(d["Records"]) > 0 and "s3" in d["Records"][0]`,
with short-circuit evaluation. -/
def S3ImageSubmissionBatchMessage.could_be (d : Dict) : Except PyErr Bool :=
  match lookupKey d "Records" with
  | none => .ok false
  | some v => do
    let n ← v.pyLen
    if 0 < n then do
      let first ← v.index0
      Value.containsStr "s3" first
    else pure false

/-! ### Derived predicates and helper lemmas -/

/-- Does an `Except` result deliver a value (no exception)? -/
def returnsBool {α : Type} (r : Except PyErr α) : Bool :=
  match r with
  | .ok _ => true
  | .error _ => false

/-- Is the value a Python mapping? -/
def Value.isDictV : Value → Bool
  | .dict _ => true
  | _ => false

/-- Do the per-record lookups of the batch loop succeed on this record? -/
def recordOk (r : Value) : Bool :=
  match recordLookups r with
  | .ok _ => true
  | .error _ => false

/-- Does this record carry object size `0` (a folder marker or empty file)? -/
def recordSizeZero (r : Value) : Bool :=
  match recordLookups r with
  | .ok (_, _, size) => size == Value.int 0
  | .error _ => false

/-- The submission the loop produces for one record, if any: `none` both for
a size-`0` record (skipped) and for a raising record (which in fact aborts
the whole batch). -/
def recordToSubmission ( image_prefix : String) (r : Value) : Option S3ImageSubmission :=
  match recordLookups r with
  | .ok (bucket_name, key, size) =>
    if size = Value.int 0 then none
    else some ⟨S3BucketContentSource.get_content_id_from_s3_key key image_prefix,
               bucket_name, key⟩
  | .error _ => none

/-- The raw (still encoded) object key of a record:
`s3_record["s3"]["object"]["key"]`. -/
def rawKeyOf (s3_record : Value) : Except PyErr Value := do
  let s3 ← s3_record.getItemStr "s3"
  let obj ← s3.getItemStr "object"
  obj.getItemStr "key"

@[simp] theorem ebind_ok {α β : Type} (a : α) (f : α → Except PyErr β) :
    (Except.ok a >>= f) = f a := rfl

@[simp] theorem ebind_error {α β : Type} (e : PyErr) (f : α → Except PyErr β) :
    ((Except.error e : Except PyErr α) >>= f) = .error e := rfl

@[simp] theorem epure_eq_ok {α : Type} (a : α) :
    (pure a : Except PyErr α) = .ok a := rfl

theorem from_sqs_url_eq (d : Dict) :
    URLSubmissionMessage.from_sqs_message d =
      match lookupKey d "ContentType", lookupKey d "ContentId",
            lookupKey d "URL", lookupKey d "EventType" with
      | some ct, some cid, some u, some et => .ok ⟨.val ct, cid, u, et⟩
      | none, _, _, _ => .error (.keyError "ContentType")
      | some _, none, _, _ => .error (.keyError "ContentId")
      | some _, some _, none, _ => .error (.keyError "URL")
      | some _, some _, some _, none => .error (.keyError "EventType") := by
  unfold URLSubmissionMessage.from_sqs_message getKey
  cases lookupKey d "ContentType" <;> cases lookupKey d "ContentId" <;>
    cases lookupKey d "URL" <;> cases lookupKey d "EventType" <;> rfl

theorem processRecord_error (r : Value) ( image_prefix : String) (e : PyErr)
    (h : recordLookups r = .error e) :
    processRecord r image_prefix = .error e := by
  unfold processRecord
  rw [h]
  rfl

theorem processRecord_ok (r : Value) ( image_prefix : String)
    (bucket_name : Value) (key : String) (size : Value)
    (h : recordLookups r = .ok (bucket_name, key, size)) :
    processRecord r image_prefix =
      .ok (if size = Value.int 0 then none
           else some ⟨S3BucketContentSource.get_content_id_from_s3_key key image_prefix,
                      bucket_name, key⟩) := by
  unfold processRecord
  rw [h]
  simp only [ebind_ok]
  split <;> rfl

theorem processRecords_ok_eq (rs : List Value) ( image_prefix : String)
    (hwf : ∀ r ∈ rs, recordOk r = true) :
    processRecords rs image_prefix = .ok (rs.filterMap ( recordToSubmission image_prefix)) := by
  induction rs with
  | nil => rfl
  | cons r rest ih =>
    have hr : recordOk r = true := hwf r (List.mem_cons_self r rest)
    have hrest : ∀ x ∈ rest, recordOk x = true :=
      fun x hx => hwf x (List.mem_cons_of_mem r hx)
    unfold recordOk at hr
    rcases hlk : recordLookups r with e | ⟨bucket_name, key, size⟩
    · rw [hlk] at hr; exact absurd hr (by simp)
    · rw [processRecords, processRecord_ok r image_prefix bucket_name key size hlk,
        ebind_ok, ih hrest, ebind_ok, List.filterMap_cons]
      unfold recordToSubmission
      rw [hlk]
      split <;> rename_i heq <;> simp [heq]

/-! ### Claim C1 — round-trip serialization -/

/-- C1 fails as stated: serializing a well-formed `URLSubmissionMessage`
whose `content_type` is a registered content-type class and deserializing
the result does not reconstruct an equal value — the reconstructed message
carries the raw registry-name string `"photo"` in `content_type`, which is
not equal (Python `==` on the dataclass) to the class itself. -/
theorem c1_roundtrip_counterexample :
    (URLSubmissionMessage.to_sqs_message
        ⟨.cls ⟨"photo"⟩, Value.str "id1", Value.str "http://example.com/a.jpg",
         Value.str "URLSubmission"⟩).bind
      URLSubmissionMessage.from_sqs_message =
      .ok ⟨.val (Value.str "photo"), Value.str "id1", Value.str "http://example.com/a.jpg",
           Value.str "URLSubmission"⟩ ∧
    (⟨.val (Value.str "photo"), Value.str "id1", Value.str "http://example.com/a.jpg",
      Value.str "URLSubmission"⟩ : URLSubmissionMessage) ≠
      ⟨.cls ⟨"photo"⟩, Value.str "id1", Value.str "http://example.com/a.jpg",
       Value.str "URLSubmission"⟩ := by
  decide

/-- C1 amended: for a well-formed `URLSubmissionMessage` (its `content_type`
a content-type class), deserializing its serialized form reconstructs
`content_id`, `url` and `event_type` unchanged, and `content_type` as the
raw registry-name string of the original class — full equality holds only
up to that projection of `content_type` to its name. -/
theorem c1_roundtrip_amended (ct : ContentType) (cid u et : Value) (r : Dict)
    (h : URLSubmissionMessage.to_sqs_message ⟨.cls ct, cid, u, et⟩ = .ok r) :
    URLSubmissionMessage.from_sqs_message r =
      .ok ⟨.val (Value.str ct.name), cid, u, et⟩ := by
  injection h with h
  subst h
  rfl

theorem c1_roundtrip_amended_witness :
    URLSubmissionMessage.from_sqs_message
        [("ContentType", Value.str "photo"), ("ContentId", Value.str "id1"),
         ("URL", Value.str "http://example.com/a.jpg"), ("EventType", Value.str "URLSubmission")] =
      .ok ⟨.val (Value.str "photo"), Value.str "id1", Value.str "http://example.com/a.jpg",
           Value.str "URLSubmission"⟩ :=
  c1_roundtrip_amended ⟨"photo"⟩ (Value.str "id1") (Value.str "http://example.com/a.jpg")
    (Value.str "URLSubmission") _ rfl

/-! ### Claim C2 — missing required keys raise `MalformedMessage` -/

/-- Does the failure of this record (if any) classify as `MalformedMessage`?
True for non-raising records. -/
def recordFailureMalformed (r : Value) : Bool :=
  match recordLookups r with
  | .error e => e.isMalformedMessage
  | .ok _ => true

theorem processRecords_error_of_mem (rs : List Value) ( image_prefix : String)
    (hall : ∀ r ∈ rs, recordFailureMalformed r = true)
    (hex : ∃ r ∈ rs, recordOk r = false) :
    ∃ e, processRecords rs image_prefix = .error e ∧ e.isMalformedMessage = true := by
  induction rs with
  | nil => simp at hex
  | cons r rest ih =>
    rcases hlk : recordLookups r with e | ⟨bucket_name, key, size⟩
    · refine ⟨e, ?_, ?_⟩
      · rw [processRecords, processRecord_error r image_prefix e hlk, ebind_error]
      · have h := hall r (List.mem_cons_self r rest)
        rw [recordFailureMalformed, hlk] at h
        exact h
    · have hallr : ∀ x ∈ rest, recordFailureMalformed x = true :=
        fun x hx => hall x (List.mem_cons_of_mem r hx)
      have hexr : ∃ x ∈ rest, recordOk x = false := by
        rcases hex with ⟨x, hx, hfalse⟩
        rcases List.mem_cons.mp hx with hxr | hxrest
        · rw [hxr, recordOk, hlk] at hfalse; cases hfalse
        · exact ⟨x, hxrest, hfalse⟩
      rcases ih hallr hexr with ⟨e, herr, hm⟩
      refine ⟨e, ?_, hm⟩
      rw [processRecords, processRecord_ok r image_prefix bucket_name key size hlk,
        ebind_ok, herr, ebind_error]

/-- C2: a raw mapping that lacks a required key makes the committed-family
parser fail with a `MalformedMessage` (a missing-key / `KeyError`) error:
`URLSubmissionMessage.from_sqs_message` when one of `"ContentType"`,
`"ContentId"`, `"URL"`, `"EventType"` is absent; and
`S3ImageSubmissionBatchMessage.from_sqs_message` when `"Records"` is absent,
or when some record of the `"Records"` list is missing a per-record required
field (its field extraction fails) and every failing extraction fails with
a missing-key error. -/
theorem c2_missing_field_failure :
    (∀ d : Dict,
       (lookupKey d "ContentType" = none ∨ lookupKey d "ContentId" = none ∨
        lookupKey d "URL" = none ∨ lookupKey d "EventType" = none) →
       ∃ e, URLSubmissionMessage.from_sqs_message d = .error e ∧
         e.isMalformedMessage = true) ∧
    (∀ (d : Dict) ( image_prefix : String), lookupKey d "Records" = none →
       S3ImageSubmissionBatchMessage.from_sqs_message d image_prefix =
         .error (.keyError "Records")) ∧
    (∀ (d : Dict) ( image_prefix : String) (rs : List Value),
       lookupKey d "Records" = some (Value.list rs) →
       (∀ r ∈ rs, recordFailureMalformed r = true) →
       (∃ r ∈ rs, recordOk r = false) →
       ∃ e, S3ImageSubmissionBatchMessage.from_sqs_message d image_prefix = .error e ∧
         e.isMalformedMessage = true) := by
  refine ⟨?_, ?_, ?_⟩
  · intro d h
    rw [from_sqs_url_eq]
    cases hct : lookupKey d "ContentType" with
    | none => exact ⟨.keyError "ContentType", rfl, rfl⟩
    | some ct =>
      cases hcid : lookupKey d "ContentId" with
      | none => exact ⟨.keyError "ContentId", rfl, rfl⟩
      | some cid =>
        cases hu : lookupKey d "URL" with
        | none => exact ⟨.keyError "URL", rfl, rfl⟩
        | some u =>
          cases het : lookupKey d "EventType" with
          | none => exact ⟨.keyError "EventType", rfl, rfl⟩
          | some et => simp [hct, hcid, hu, het] at h
  · intro d image_prefix h
    simp [S3ImageSubmissionBatchMessage.from_sqs_message, getKey, h]
  · intro d image_prefix rs hrec hall hex
    rcases processRecords_error_of_mem rs image_prefix hall hex with ⟨e, herr, hm⟩
    refine ⟨e, ?_, hm⟩
    simp [S3ImageSubmissionBatchMessage.from_sqs_message, getKey, hrec,
      Value.toIterable, herr]

theorem c2_missing_field_failure_witness :
    (∃ e, URLSubmissionMessage.from_sqs_message
        [("ContentType", Value.str "photo"), ("ContentId", Value.str "i"),
         ("EventType", Value.str "URLSubmission")] = .error e ∧
       e.isMalformedMessage = true) ∧
    S3ImageSubmissionBatchMessage.from_sqs_message [("foo", Value.int 1)] "p" =
      .error (.keyError "Records") ∧
    (∃ e, S3ImageSubmissionBatchMessage.from_sqs_message
        [("Records", Value.list [Value.dict [("s3", Value.dict
           [("bucket", Value.dict [("name", Value.str "b")]),
            ("object", Value.dict [("key", Value.str "a.jpg")])])]])] "p" = .error e ∧
       e.isMalformedMessage = true) :=
  ⟨c2_missing_field_failure.1 _ (Or.inr (Or.inr (Or.inl rfl))),
   c2_missing_field_failure.2.1 _ "p" rfl,
   c2_missing_field_failure.2.2 _ "p" _ rfl (by decide) (by decide)⟩

/-! ### Claim C3 — the `event_type` invariant -/

/-- C3 fails as stated: `from_sqs_message` copies the raw `"EventType"`
value into `event_type` unchanged, so a payload carrying a different tag
yields an instance whose `event_type` is not `"URLSubmission"`. -/
theorem c3_event_type_counterexample :
    URLSubmissionMessage.from_sqs_message
        [("ContentType", Value.str "photo"), ("ContentId", Value.str "i"),
         ("URL", Value.str "u"), ("EventType", Value.str "S3Upload")] =
      .ok ⟨.val (Value.str "photo"), Value.str "i", Value.str "u",
           Value.str "S3Upload"⟩ ∧
    Value.str "S3Upload" ≠ Value.str "URLSubmission" := by
  decide

/-- C3 amended: an instance constructed with the default `event_type` always
carries the reserved tag `"URLSubmission"`; an instance reconstructed by
`from_sqs_message` carries exactly the raw value bound to `"EventType"` in
the payload — hence the reserved tag precisely when the payload holds it. -/
theorem c3_event_type_amended :
    (∀ (ct : CTField) (cid u : Value),
       ({ content_type := ct, content_id := cid, url := u } :
         URLSubmissionMessage).event_type = Value.str "URLSubmission") ∧
    (∀ (d : Dict) (m : URLSubmissionMessage),
       URLSubmissionMessage.from_sqs_message d = .ok m →
       lookupKey d "EventType" = some m.event_type) := by
  refine ⟨fun ct cid u => rfl, fun d m h => ?_⟩
  rw [from_sqs_url_eq] at h
  cases hct : lookupKey d "ContentType" <;> rw [hct] at h
  · cases h
  cases hcid : lookupKey d "ContentId" <;> rw [hcid] at h
  · cases h
  cases hu : lookupKey d "URL" <;> rw [hu] at h
  · cases h
  cases het : lookupKey d "EventType" <;> rw [het] at h
  · cases h
  · injection h with h
    rw [← h]

theorem c3_event_type_amended_witness :
    lookupKey [("ContentType", Value.str "photo"), ("ContentId", Value.str "i"),
               ("URL", Value.str "u"), ("EventType", Value.str "URLSubmission")]
        "EventType" =
      some (URLSubmissionMessage.event_type
        ⟨.val (Value.str "photo"), Value.str "i", Value.str "u",
         Value.str "URLSubmission"⟩) :=
  c3_event_type_amended.2
    [("ContentType", Value.str "photo"), ("ContentId", Value.str "i"),
     ("URL", Value.str "u"), ("EventType", Value.str "URLSubmission")]
    ⟨.val (Value.str "photo"), Value.str "i", Value.str "u",
     Value.str "URLSubmission"⟩ rfl

/-! ### Claim C4 — totality of the discriminators -/

/-- C4 fails as stated: `S3ImageSubmissionBatchMessage.could_be` does raise —
on a mapping binding `"Records"` to an integer, `len(d["Records"])` raises
`TypeError` instead of yielding `false`. -/
theorem c4_could_be_counterexample :
    S3ImageSubmissionBatchMessage.could_be [("Records", Value.int 5)] =
      .error .typeError := by
  decide

/-- C4 amended: `URLSubmissionMessage.could_be` never raises: it returns
exactly the boolean "the mapping has key `EventType`" on every raw mapping.
`S3ImageSubmissionBatchMessage.could_be` returns a boolean without raising
whenever `"Records"` is absent or bound to a list of mappings, and
structurally unexpected input of that shape (absent or empty `"Records"`)
yields `false`; but on other bindings of `"Records"` (e.g. an integer) it
can raise `TypeError` instead of returning `false`. -/
theorem c4_could_be_amended :
    (∀ d : Dict, URLSubmissionMessage.could_be d = (lookupKey d "EventType").isSome) ∧
    (∀ d : Dict, lookupKey d "Records" = none →
       S3ImageSubmissionBatchMessage.could_be d = .ok false) ∧
    (∀ (d : Dict) (xs : List Value), lookupKey d "Records" = some (Value.list xs) →
       (∀ x ∈ xs, x.isDictV = true) →
       returnsBool (S3ImageSubmissionBatchMessage.could_be d) = true) ∧
    (∀ d : Dict, lookupKey d "Records" = some (Value.list []) →
       S3ImageSubmissionBatchMessage.could_be d = .ok false) := by
  refine ⟨fun d => rfl, ?_, ?_, ?_⟩
  · intro d h
    unfold S3ImageSubmissionBatchMessage.could_be
    rw [h]
  · intro d xs hrec hdict
    unfold S3ImageSubmissionBatchMessage.could_be
    rw [hrec]
    cases xs with
    | nil => rfl
    | cons x rest =>
      have hx := hdict x (List.mem_cons_self x rest)
      cases x with
      | dict es => simp [Value.pyLen, Value.index0, Value.containsStr, returnsBool]
      | str s => cases hx
      | int n => cases hx
      | list ys => cases hx
  · intro d h
    unfold S3ImageSubmissionBatchMessage.could_be
    rw [h]
    rfl

theorem c4_could_be_amended_witness :
    URLSubmissionMessage.could_be [("EventType", Value.int 7)] =
      (lookupKey [("EventType", Value.int 7)] "EventType").isSome ∧
    S3ImageSubmissionBatchMessage.could_be [("Other", Value.int 1)] = .ok false ∧
    returnsBool (S3ImageSubmissionBatchMessage.could_be
      [("Records", Value.list [Value.dict [("x", Value.int 1)]])]) = true ∧
    S3ImageSubmissionBatchMessage.could_be [("Records", Value.list [])] = .ok false :=
  ⟨c4_could_be_amended.1 _,
   c4_could_be_amended.2.1 _ rfl,
   c4_could_be_amended.2.2.1 _ [Value.dict [("x", Value.int 1)]] rfl (by decide),
   c4_could_be_amended.2.2.2 _ rfl⟩

/-! ### Claim C5 — mutual exclusivity of the discriminators -/

/-- C5 fails as stated: a raw mapping that carries both an `"EventType"` key
and a well-shaped `"Records"` key satisfies both discriminators at once. -/
theorem c5_exclusivity_counterexample :
    URLSubmissionMessage.could_be
        [("EventType", Value.str "URLSubmission"),
         ("Records", Value.list [Value.dict [("s3", Value.dict [])]])] = true ∧
    S3ImageSubmissionBatchMessage.could_be
        [("EventType", Value.str "URLSubmission"),
         ("Records", Value.list [Value.dict [("s3", Value.dict [])]])] = .ok true := by
  decide

/-- C5 amended: the discriminators are mutually exclusive on every raw
mapping that does not carry both discriminating keys — if `"EventType"` or
`"Records"` is absent, `URLSubmissionMessage.could_be` and
`S3ImageSubmissionBatchMessage.could_be` are not both true. -/
theorem c5_exclusivity_amended (d : Dict)
    (h : lookupKey d "EventType" = none ∨ lookupKey d "Records" = none) :
    ¬(URLSubmissionMessage.could_be d = true ∧
      S3ImageSubmissionBatchMessage.could_be d = .ok true) := by
  rintro ⟨hurl, hbatch⟩
  rcases h with h | h
  · rw [URLSubmissionMessage.could_be, h] at hurl
    cases hurl
  · rw [S3ImageSubmissionBatchMessage.could_be, h] at hbatch
    cases hbatch

theorem c5_exclusivity_amended_witness :
    ¬(URLSubmissionMessage.could_be [("EventType", Value.str "URLSubmission")] = true ∧
      S3ImageSubmissionBatchMessage.could_be [("EventType", Value.str "URLSubmission")] =
        .ok true) :=
  c5_exclusivity_amended [("EventType", Value.str "URLSubmission")] (Or.inr rfl)

/-! ### Claim C6 — soundness of the batch discriminator -/

/-- Modelled from the words of the spec: discrimination condition for the
storage-batch family — `raw["Records"]` exists, is a non-empty sequence, and
its first element contains the storage-provider marker key `"s3"`, i.e. is a
mapping with that key. -/
def couldBeSpecStorageBatch (d : Dict) : Bool :=
  match lookupKey d "Records" with
  | some (.list (x :: _)) =>
    match x with
    | .dict es => es.any fun e => e.1 == "s3"
    | _ => false
  | _ => false

theorem containsSeq_s3_single (c : Char) : containsSeq ['s', '3'] [c] = false := by
  simp [containsSeq, List.isPrefixOf, List.isEmpty]

/-- C6 fails as stated: a `"Records"` list whose first element is itself a
list containing the string `"s3"` makes `could_be` return `true`, although
that first element is not a mapping containing the marker key `"s3"` — the
code runs the generic Python membership test, not a mapping-key test. -/
theorem c6_discrimination_counterexample :
    S3ImageSubmissionBatchMessage.could_be
        [("Records", Value.list [Value.list [Value.str "s3"]])] = .ok true ∧
    couldBeSpecStorageBatch
        [("Records", Value.list [Value.list [Value.str "s3"]])] = false := by
  decide

/-- C6 amended: `S3ImageSubmissionBatchMessage.could_be d` returns `true`
iff `d` binds `"Records"` to a non-empty list whose first element passes the
Python membership test for `"s3"` — for a mapping first element that is
"has the key s3" (the intended shape of the spec), but a list first element
with `"s3"` as an element, or a string first element with `"s3"` as a
substring, also pass. -/
theorem c6_discrimination_amended (d : Dict) :
    S3ImageSubmissionBatchMessage.could_be d = .ok true ↔
      ∃ xs x, lookupKey d "Records" = some (Value.list xs) ∧ xs.head? = some x ∧
        Value.containsStr "s3" x = .ok true := by
  unfold S3ImageSubmissionBatchMessage.could_be
  cases hrec : lookupKey d "Records" with
  | none => simp
  | some v =>
    cases v with
    | int n => simp [Value.pyLen]
    | str s =>
      cases hs : s.data with
      | nil => simp [Value.pyLen, String.length, hs]
      | cons c cs =>
        simp [Value.pyLen, String.length, hs, Value.index0, Value.containsStr,
          containsSeq_s3_single]
    | dict es =>
      cases es with
      | nil => simp [Value.pyLen]
      | cons e rest => simp [Value.pyLen, Value.index0]
    | list xs =>
      cases xs with
      | nil => simp [Value.pyLen]
      | cons x rest =>
        have hpos : 0 < rest.length + 1 := Nat.succ_pos _
        simp only [Value.pyLen, ebind_ok, List.length_cons, if_pos hpos,
          Value.index0, List.head?]
        constructor
        · intro h
          exact ⟨x :: rest, x, rfl, rfl, h⟩
        · rintro ⟨xs', x', hxs, hx, hc⟩
          injection hxs with hxs
          injection hxs with hxs
          subst hxs
          injection hx with hx
          subst hx
          exact hc

theorem c6_discrimination_amended_witness :
    S3ImageSubmissionBatchMessage.could_be
        [("Records", Value.list [Value.dict [("s3", Value.int 1)], Value.int 2])] =
      .ok true :=
  (c6_discrimination_amended _).mpr
    ⟨[Value.dict [("s3", Value.int 1)], Value.int 2], Value.dict [("s3", Value.int 1)],
     rfl, rfl, rfl⟩

/-! ### Claim C7 — filtering of empty objects -/

theorem recordSizeZero_ok (r : Value) (bucket_name : Value) (key : String)
    (size : Value) (h : recordLookups r = .ok (bucket_name, key, size)) :
    recordSizeZero r = (size == Value.int 0) := by
  unfold recordSizeZero
  rw [h]

theorem recordToSubmission_ok ( image_prefix : String) (r : Value)
    (bucket_name : Value) (key : String) (size : Value)
    (h : recordLookups r = .ok (bucket_name, key, size)) :
    recordToSubmission image_prefix r =
      if size = Value.int 0 then none
      else some ⟨S3BucketContentSource.get_content_id_from_s3_key key image_prefix,
                 bucket_name, key⟩ := by
  unfold recordToSubmission
  rw [h]

theorem filterMap_length_filtering (rs : List Value) ( image_prefix : String)
    (hwf : ∀ r ∈ rs, recordOk r = true) :
    (rs.filterMap ( recordToSubmission image_prefix)).length =
      rs.length - rs.countP recordSizeZero := by
  induction rs with
  | nil => rfl
  | cons r rest ih =>
    have hr : recordOk r = true := hwf r (List.mem_cons_self r rest)
    have hrest : ∀ x ∈ rest, recordOk x = true :=
      fun x hx => hwf x (List.mem_cons_of_mem r hx)
    have hle := List.countP_le_length (p := recordSizeZero) (l := rest)
    rcases hlk : recordLookups r with e | ⟨bucket_name, key, size⟩
    · rw [recordOk, hlk] at hr; cases hr
    · rw [List.filterMap_cons, List.countP_cons,
        recordToSubmission_ok image_prefix r bucket_name key size hlk,
        recordSizeZero_ok r bucket_name key size hlk]
      by_cases hsz : size = Value.int 0
      · subst hsz
        simp [ih hrest]
      · have hne : (size == Value.int 0) = false := beq_eq_false_iff_ne.mpr hsz
        simp [if_neg hsz, hne, ih hrest]
        omega

/-- C7: on a well-formed batch notification whose `"Records"` list has `N`
records of which `M` have object size `0`, `from_sqs_message` succeeds and
returns exactly the submissions of the non-zero-size records, one per such
record and in the original relative record order (the skipped records yield
no submission and raise nothing): the result is the in-order `filterMap` of
the per-record translation, its length is `N - M`, and a record yields a
submission exactly when its size is non-zero. -/
theorem c7_empty_object_filtering (d : Dict) ( image_prefix : String)
    (rs : List Value)
    (hrec : lookupKey d "Records" = some (Value.list rs))
    (hwf : ∀ r ∈ rs, recordOk r = true) :
    S3ImageSubmissionBatchMessage.from_sqs_message d image_prefix =
      .ok ⟨rs.filterMap ( recordToSubmission image_prefix)⟩ ∧
    (rs.filterMap ( recordToSubmission image_prefix)).length =
      rs.length - rs.countP recordSizeZero ∧
    (∀ r ∈ rs, ( recordToSubmission image_prefix r).isSome = !recordSizeZero r) := by
  refine ⟨?_, filterMap_length_filtering rs image_prefix hwf, ?_⟩
  · simp [S3ImageSubmissionBatchMessage.from_sqs_message, getKey, hrec,
      Value.toIterable, processRecords_ok_eq rs image_prefix hwf]
  · intro r hr
    have hok : recordOk r = true := hwf r hr
    rcases hlk : recordLookups r with e | ⟨bucket_name, key, size⟩
    · rw [recordOk, hlk] at hok; cases hok
    · rw [recordToSubmission_ok image_prefix r bucket_name key size hlk,
        recordSizeZero_ok r bucket_name key size hlk]
      by_cases hsz : size = Value.int 0
      · subst hsz
        simp
      · have hne : (size == Value.int 0) = false := beq_eq_false_iff_ne.mpr hsz
        rw [if_neg hsz, hne]
        rfl

/-- Records of the end-to-end scenario of the spec: a size-`0` record with a
percent-encoded key, then a 1024-byte record. -/
def c7ExampleRecords : List Value :=
  [Value.dict [("s3", Value.dict
     [("bucket", Value.dict [("name", Value.str "b")]),
      ("object", Value.dict [("key", Value.str "img%2Fsubmissions/a.jpg"),
                             ("size", Value.int 0)])])],
   Value.dict [("s3", Value.dict
     [("bucket", Value.dict [("name", Value.str "b")]),
      ("object", Value.dict [("key", Value.str "img/submissions/b.jpg"),
                             ("size", Value.int 1024)])])]]

theorem c7_empty_object_filtering_witness :
    S3ImageSubmissionBatchMessage.from_sqs_message
        [("Records", Value.list c7ExampleRecords)] "img/submissions/" =
      .ok ⟨[⟨"b.jpg", Value.str "b", "img/submissions/b.jpg"⟩]⟩ ∧
    (c7ExampleRecords.filterMap ( recordToSubmission "img/submissions/")).length =
      c7ExampleRecords.length - c7ExampleRecords.countP recordSizeZero := by
  have h := c7_empty_object_filtering [("Records", Value.list c7ExampleRecords)]
    "img/submissions/" c7ExampleRecords rfl (by decide)
  exact ⟨h.1, h.2.1⟩

/-! ### Claim C8 — decoding of the object key -/

theorem recordLookups_rawKey (r : Value) (bucket_name : Value) (key : String)
    (size : Value) (h : recordLookups r = .ok (bucket_name, key, size)) :
    ∃ s, rawKeyOf r = .ok (Value.str s) ∧ key = unquote_plus s := by
  unfold recordLookups at h
  unfold rawKeyOf
  rcases h1 : r.getItemStr "s3" with e | s3
  · rw [h1] at h; simp only [ebind_error] at h; cases h
  rw [h1] at h
  simp only [ebind_ok] at h ⊢
  rcases h2 : s3.getItemStr "bucket" with e | bkt
  · rw [h2] at h; simp only [ebind_error] at h; cases h
  rw [h2] at h
  simp only [ebind_ok] at h
  rcases h3 : bkt.getItemStr "name" with e | bname
  · rw [h3] at h; simp only [ebind_error] at h; cases h
  rw [h3] at h
  simp only [ebind_ok] at h
  rcases h4 : s3.getItemStr "object" with e | obj
  · rw [h4] at h; simp only [ebind_error] at h; cases h
  rw [h4] at h
  simp only [ebind_ok] at h ⊢
  rcases h5 : obj.getItemStr "key" with e | rawk
  · rw [h5] at h; simp only [ebind_error] at h; cases h
  rw [h5] at h
  simp only [ebind_ok] at h ⊢
  cases rawk with
  | str s =>
    simp only [pyUnquotePlus, ebind_ok] at h
    rcases h6 : obj.getItemStr "size" with e | sz
    · rw [h6] at h; simp only [ebind_error] at h; cases h
    rw [h6] at h
    simp only [ebind_ok, epure_eq_ok] at h
    injection h with h
    injection h with hb h
    injection h with hk hs
    exact ⟨s, rfl, hk.symm⟩
  | int n => simp only [pyUnquotePlus, ebind_error] at h; cases h
  | list xs => simp only [pyUnquotePlus, ebind_error] at h; cases h
  | dict es => simp only [pyUnquotePlus, ebind_error] at h; cases h

/-- C8: on a well-formed batch notification, every produced submission
carries as its `key` the `unquote_plus`-decoded form (plus-to-space and
percent-escape resolution) of the raw object key of one of the records; and
in particular the encoded key `"folder+name/file%20one.jpg"` decodes to
`"folder name/file one.jpg"`. -/
theorem c8_key_decoding (d : Dict) ( image_prefix : String) (rs : List Value)
    (hrec : lookupKey d "Records" = some (Value.list rs))
    (hwf : ∀ r ∈ rs, recordOk r = true)
    (batch : S3ImageSubmissionBatchMessage)
    (hparse : S3ImageSubmissionBatchMessage.from_sqs_message d image_prefix =
      .ok batch) :
    (∀ sub ∈ batch.image_submissions, ∃ r ∈ rs, ∃ s,
       rawKeyOf r = .ok (Value.str s) ∧ sub.key = unquote_plus s) ∧
    unquote_plus "folder+name/file%20one.jpg" = "folder name/file one.jpg" := by
  refine ⟨?_, by decide⟩
  have heq : S3ImageSubmissionBatchMessage.from_sqs_message d image_prefix =
      .ok ⟨rs.filterMap ( recordToSubmission image_prefix)⟩ := by
    simp [S3ImageSubmissionBatchMessage.from_sqs_message, getKey, hrec,
      Value.toIterable, processRecords_ok_eq rs image_prefix hwf]
  rw [hparse] at heq
  injection heq with heq
  subst heq
  intro sub hsub
  rw [List.mem_filterMap] at hsub
  rcases hsub with ⟨r, hr, hfr⟩
  have hok := hwf r hr
  rcases hlk : recordLookups r with e | ⟨bucket_name, key, size⟩
  · rw [recordOk, hlk] at hok; cases hok
  rw [recordToSubmission_ok image_prefix r bucket_name key size hlk] at hfr
  by_cases hsz : size = Value.int 0
  · rw [if_pos hsz] at hfr; cases hfr
  · rw [if_neg hsz] at hfr
    injection hfr with hfr
    rcases recordLookups_rawKey r bucket_name key size hlk with ⟨s, hraw, hkey⟩
    refine ⟨r, hr, s, hraw, ?_⟩
    rw [← hfr]
    exact hkey

theorem c8_key_decoding_witness :
    unquote_plus "folder+name/file%20one.jpg" = "folder name/file one.jpg" :=
  (c8_key_decoding
    [("Records", Value.list [Value.dict [("s3", Value.dict
       [("bucket", Value.dict [("name", Value.str "b")]),
        ("object", Value.dict [("key", Value.str "folder+name/file%20one.jpg"),
                               ("size", Value.int 7)])])]])]
    ""
    [Value.dict [("s3", Value.dict
       [("bucket", Value.dict [("name", Value.str "b")]),
        ("object", Value.dict [("key", Value.str "folder+name/file%20one.jpg"),
                               ("size", Value.int 7)])])]]
    rfl (by decide)
    ⟨[⟨"folder name/file one.jpg", Value.str "b", "folder name/file one.jpg"⟩]⟩
    (by decide)).2

/-! ### Claim C9 — content-id derivation -/

theorem get_content_id_removes_start ( image_prefix rest : String) :
    S3BucketContentSource.get_content_id_from_s3_key ( image_prefix ++ rest)
      image_prefix = rest := by
  unfold S3BucketContentSource.get_content_id_from_s3_key
  rw [String.data_append,
    show image_prefix.length = image_prefix.data.length from rfl,
    List.drop_left]

/-- C9: on a well-formed batch notification, every produced submission (it
comes from a non-zero-size record) whose decoded key starts with the
configured prefix has as `content_id` the decoded key with that prefix
removed from its start; in particular prefix `"submissions/"` and key
`"submissions/abc123.jpg"` derive content id `"abc123.jpg"`.  (The deriving
function is modelled from the spec, `content_sources.py` being outside the
given sources.) -/
theorem c9_content_id_derivation (d : Dict) ( image_prefix : String)
    (rs : List Value)
    (hrec : lookupKey d "Records" = some (Value.list rs))
    (hwf : ∀ r ∈ rs, recordOk r = true)
    (batch : S3ImageSubmissionBatchMessage)
    (hparse : S3ImageSubmissionBatchMessage.from_sqs_message d image_prefix =
      .ok batch) :
    (∀ sub ∈ batch.image_submissions, ∀ rest : String,
       sub.key = image_prefix ++ rest → sub.content_id = rest) ∧
    S3BucketContentSource.get_content_id_from_s3_key "submissions/abc123.jpg"
      "submissions/" = "abc123.jpg" := by
  refine ⟨?_, by decide⟩
  have heq : S3ImageSubmissionBatchMessage.from_sqs_message d image_prefix =
      .ok ⟨rs.filterMap ( recordToSubmission image_prefix)⟩ := by
    simp [S3ImageSubmissionBatchMessage.from_sqs_message, getKey, hrec,
      Value.toIterable, processRecords_ok_eq rs image_prefix hwf]
  rw [hparse] at heq
  injection heq with heq
  subst heq
  intro sub hsub rest hkey
  rw [List.mem_filterMap] at hsub
  rcases hsub with ⟨r, hr, hfr⟩
  have hok := hwf r hr
  rcases hlk : recordLookups r with e | ⟨bucket_name, key, size⟩
  · rw [recordOk, hlk] at hok; cases hok
  rw [recordToSubmission_ok image_prefix r bucket_name key size hlk] at hfr
  by_cases hsz : size = Value.int 0
  · rw [if_pos hsz] at hfr; cases hfr
  · rw [if_neg hsz] at hfr
    injection hfr with hfr
    subst hfr
    have hk : key = image_prefix ++ rest := hkey
    show S3BucketContentSource.get_content_id_from_s3_key key image_prefix = rest
    rw [hk, get_content_id_removes_start]

theorem c9_content_id_derivation_witness :
    (⟨"abc123.jpg", Value.str "b", "submissions/abc123.jpg"⟩ :
      S3ImageSubmission).content_id = "abc123.jpg" :=
  (c9_content_id_derivation
    [("Records", Value.list [Value.dict [("s3", Value.dict
       [("bucket", Value.dict [("name", Value.str "b")]),
        ("object", Value.dict [("key", Value.str "submissions/abc123.jpg"),
                               ("size", Value.int 9)])])]])]
    "submissions/"
    [Value.dict [("s3", Value.dict
       [("bucket", Value.dict [("name", Value.str "b")]),
        ("object", Value.dict [("key", Value.str "submissions/abc123.jpg"),
                               ("size", Value.int 9)])])]]
    rfl (by decide)
    ⟨[⟨"abc123.jpg", Value.str "b", "submissions/abc123.jpg"⟩]⟩ (by decide)).1
    ⟨"abc123.jpg", Value.str "b", "submissions/abc123.jpg"⟩ (by decide)
    "abc123.jpg" (by decide)

/-! ### Claim C10 — discrimination does not imply parseability -/

/-- C10: there is a raw mapping the batch discriminator accepts that the
batch parser nevertheless fails on — a single record whose `"s3"` entry is
an empty mapping passes `could_be` (which only inspects `"Records"`, its
non-emptiness and the `"s3"` key of the first record) but makes
`from_sqs_message` raise a missing-key error for `"bucket"`. -/
theorem c10_could_be_without_parse :
    S3ImageSubmissionBatchMessage.could_be
        [("Records", Value.list [Value.dict [("s3", Value.dict [])]])] = .ok true ∧
    S3ImageSubmissionBatchMessage.from_sqs_message
        [("Records", Value.list [Value.dict [("s3", Value.dict [])]])]
        "submissions/" = .error (.keyError "bucket") := by
  decide

end Hmalib
